import Mathlib

/-!
Verification of the normalization + batch-delivery pipeline of the
plugup-push-orders-to-supabase repository, shallowly embedded in Lean.

Each definition mirrors one Python function of the source tree; theorems
settle the frozen claims about the spec.
-/

namespace PlugUp

/-! ## Status normalization
(`function_shipment_tracking/utils/status_mapping.py`) -/

/-- `PLUGUP_STATUS_MAPPING`: canonical status → recognized raw aliases. -/
def PLUGUP_STATUS_MAPPING : List (String × List String) := [
  ("pending", ["pending", "pendiente", "created", "acknowledged"]),
  ("ready_to_ship", ["ready_to_ship", "lista para despacho", "handling", "ready_to_ship"]),
  ("dispatched", ["shipped", "enviado", "en tránsito", "shipped"]),
  ("in_transit", ["shipped", "en tránsito", "transit", "in_transit"]),
  ("out_for_delivery", ["out_for_delivery", "en reparto"]),
  ("delivered", ["delivered", "entregada", "entregado", "delivered"]),
  ("delivery_failed", ["not_delivered", "failed_delivery", "excepción", "delivery_failed"]),
  ("cancelled", ["cancelled", "canceled", "cancelada", "cancelado", "cancelled"]),
  ("returned", ["returned", "devuelto", "returned"])]

/-- `MARKETPLACE_STATUS_MAPPING`: marketplace → (raw status → canonical status). -/
def MARKETPLACE_STATUS_MAPPING : List (String × List (String × String)) := [
  ("meli", [("pending", "pending"), ("handling", "ready_to_ship"),
            ("ready_to_ship", "ready_to_ship"), ("shipped", "dispatched"),
            ("delivered", "delivered"), ("not_delivered", "delivery_failed"),
            ("cancelled", "cancelled")]),
  ("fala", [("pending", "pending"), ("ready_to_ship", "ready_to_ship"),
            ("shipped", "dispatched"), ("delivered", "delivered"),
            ("canceled", "cancelled"), ("returned", "returned")]),
  ("walm", [("created", "pending"), ("acknowledged", "ready_to_ship"),
            ("shipped", "dispatched"), ("delivered", "delivered"),
            ("cancelled", "cancelled")]),
  ("cenc", [("pendiente", "pending"), ("lista para despacho", "ready_to_ship"),
            ("enviado", "dispatched"), ("en tránsito", "in_transit"),
            ("entregada", "delivered"), ("entregado", "delivered"),
            ("cancelada", "cancelled"), ("cancelado", "cancelled"),
            ("devuelto", "returned")])]

/-- Python `str.lower()` (ASCII case mapping, as used by these tables). -/
def pyLower (s : String) : String := String.mk (s.data.map Char.toLower)

/-- Python `str.strip()`: drop leading and trailing whitespace. -/
def pyStrip (s : String) : String :=
  String.mk
    (((s.data.dropWhile Char.isWhitespace).reverse.dropWhile
      Char.isWhitespace).reverse)

/-- `str(x).lower().strip()` as applied to both inputs of `normalize_status`. -/
def pyClean (s : String) : String := pyStrip (pyLower s)

/-- Python `dict.get(k)` on an insertion-ordered dict literal. -/
def assocLookup {α : Type} (m : List (String × α)) (k : String) : Option α :=
  (m.find? (fun p => p.1 == k)).map Prod.snd

/-- The second-tier lookup of `normalize_status`: first canonical status whose
lower-cased alias list contains the cleaned status. -/
def generalLookup (cleanStatus : String) : Option String :=
  (PLUGUP_STATUS_MAPPING.find?
    (fun p => (p.2.map pyLower).contains cleanStatus)).map Prod.fst

/-- `normalize_status(raw_status, marketplace)`. Empty inputs are the falsy
case of `if not raw_status or not marketplace`. -/
def normalize_status (raw_status marketplace : String) : String :=
  if raw_status = "" ∨ marketplace = "" then "pending"
  else
    let clean_status := pyClean raw_status
    let clean_marketplace := pyClean marketplace
    let marketplace_mapping :=
      (assocLookup MARKETPLACE_STATUS_MAPPING clean_marketplace).getD []
    match assocLookup marketplace_mapping clean_status with
    | some normalized => normalized
    | none =>
      match generalLookup clean_status with
      | some plugup_status => plugup_status
      | none => "pending"

/-- `get_supported_statuses()`: the canonical status set. -/
def get_supported_statuses : List String := PLUGUP_STATUS_MAPPING.map Prod.fst

/-- `validate_status_mapping()`: every marketplace entry maps to a canonical
status; the module raises `ValueError` at import when this is false. -/
def validate_status_mapping : Bool :=
  MARKETPLACE_STATUS_MAPPING.all
    (fun tbl => tbl.2.all (fun q => get_supported_statuses.contains q.2))

/-! ## Delivery client
(`function_shipment_tracking/services/supabase_service.py`,
`functions/services/webhook_service.py`) -/

/-- Python `s[:n]` truncation by code points. -/
def pyTrunc (n : Nat) (s : String) : String := String.mk (s.data.take n)

/-- The structured fields read off a 200 response's JSON body:
`created`, `updated`, `skipped`, `errors`, `details.error_messages`
(absent keys default to `0` / `[]` as with `dict.get`). -/
structure BatchResponse where
  created : Nat
  updated : Nat
  skipped : Nat
  errs : Nat
  error_messages : List String
deriving Repr, DecidableEq

/-- What one HTTP attempt of `_send_batch_to_supabase` can observe:
a response (with status, text, and parsed JSON — `none` when the body is not
JSON or the dict is empty/falsy), or one of the caught exception classes. -/
inductive AttemptOutcome where
  | httpResponse (status : Nat) (body : String) (json : Option BatchResponse)
  | timeout
  | connectionError (msg : String)
  | requestException (msg : String)
  | otherException (msg : String)
deriving Repr, DecidableEq

/-- The tuple `(success, message, response_data)` returned by
`_send_batch_to_supabase`, instrumented with the number of HTTP attempts made
and the list of `time.sleep` backoff durations, in order. -/
structure SendResult where
  success : Bool
  message : String
  data : Option BatchResponse
  attempts : Nat
  sleeps : List Nat
deriving Repr, DecidableEq

/-- `SupabaseService._send_batch_to_supabase(events, retry_count)`.
The network is an oracle giving attempt `retry_count`'s outcome. -/
def sendBatchToSupabase (maxRetries timeoutSecs : Nat)
    (oracle : Nat → AttemptOutcome) (retry_count : Nat) : SendResult :=
  match oracle retry_count with
  | .httpResponse status body json =>
    if status = 200 then
      { success := true, message := "Success: " ++ toString status,
        data := json, attempts := 1, sleeps := [] }
    else if h : 500 ≤ status ∧ retry_count < maxRetries then
      let r := sendBatchToSupabase maxRetries timeoutSecs oracle (retry_count + 1)
      { r with attempts := r.attempts + 1, sleeps := 2 ^ retry_count :: r.sleeps }
    else
      { success := false,
        message := "Failed: " ++ toString status ++ " - " ++ pyTrunc 200 body,
        data := none, attempts := 1, sleeps := [] }
  | .timeout =>
    if h : retry_count < maxRetries then
      let r := sendBatchToSupabase maxRetries timeoutSecs oracle (retry_count + 1)
      { r with attempts := r.attempts + 1, sleeps := 2 ^ retry_count :: r.sleeps }
    else
      { success := false, message := "Timeout after " ++ toString timeoutSecs ++ "s",
        data := none, attempts := 1, sleeps := [] }
  | .connectionError m =>
    { success := false, message := "Connection error: " ++ m,
      data := none, attempts := 1, sleeps := [] }
  | .requestException m =>
    { success := false, message := "Request exception: " ++ m,
      data := none, attempts := 1, sleeps := [] }
  | .otherException m =>
    { success := false, message := "Unexpected exception: " ++ m,
      data := none, attempts := 1, sleeps := [] }
termination_by maxRetries + 1 - retry_count
decreasing_by all_goals omega

/-- What one HTTP attempt of `WebhookService._send_single_order` can observe;
`requests.exceptions.ConnectionError` is caught by the generic
`except Exception` handler there, hence `exception`. -/
inductive OrderAttemptOutcome where
  | httpResponse (status : Nat) (body : String)
  | timeout
  | exception (msg : String)
deriving Repr, DecidableEq

/-- The `(success, message)` pair of `_send_single_order`, instrumented with
attempts and backoff sleeps. -/
structure OrderSendResult where
  success : Bool
  message : String
  attempts : Nat
  sleeps : List Nat
deriving Repr, DecidableEq

/-- `WebhookService._send_single_order(order, retry_count)`. -/
def sendSingleOrder (maxRetries timeoutSecs : Nat)
    (oracle : Nat → OrderAttemptOutcome) (retry_count : Nat) : OrderSendResult :=
  match oracle retry_count with
  | .httpResponse status body =>
    if status = 200 ∨ status = 201 then
      { success := true, message := "Success: " ++ toString status,
        attempts := 1, sleeps := [] }
    else if h : 500 ≤ status ∧ retry_count < maxRetries then
      let r := sendSingleOrder maxRetries timeoutSecs oracle (retry_count + 1)
      { r with attempts := r.attempts + 1, sleeps := 2 ^ retry_count :: r.sleeps }
    else
      { success := false,
        message := "Failed: " ++ toString status ++ " - " ++ pyTrunc 100 body,
        attempts := 1, sleeps := [] }
  | .timeout =>
    if h : retry_count < maxRetries then
      let r := sendSingleOrder maxRetries timeoutSecs oracle (retry_count + 1)
      { r with attempts := r.attempts + 1, sleeps := 2 ^ retry_count :: r.sleeps }
    else
      { success := false, message := "Timeout after " ++ toString timeoutSecs ++ "s",
        attempts := 1, sleeps := [] }
  | .exception m =>
    { success := false, message := "Exception: " ++ m, attempts := 1, sleeps := [] }
termination_by maxRetries + 1 - retry_count
decreasing_by all_goals omega

/-! ## Batch dispatcher
(`SupabaseService._chunk_events`, `SupabaseService.send_tracking_events`) -/

/-- Fuel-indexed worker for `_chunk_events`; fuel is the list length, enough
for any chunk size ≥ 1. -/
def chunkGo {α : Type} (bs : Nat) : Nat → List α → List (List α)
  | _, [] => []
  | 0, _ :: _ => []
  | fuel + 1, e :: rest =>
    ((e :: rest).take bs) :: chunkGo bs fuel ((e :: rest).drop bs)

/-- `SupabaseService._chunk_events`: split into slices of `bs` items,
`events[i:i+bs]` for `i = 0, bs, 2*bs, ...`. -/
def chunk_events {α : Type} (bs : Nat) (events : List α) : List (List α) :=
  chunkGo bs events.length events

/-- `SupabaseResult` dataclass. -/
structure SupabaseResult where
  total : Nat
  successful : Nat
  failed : Nat
  errors : List String
deriving Repr, DecidableEq

/-- The dictionary built by `SupabaseResult.to_dict`. -/
structure SupabaseResultDict where
  total_events : Nat
  successful : Nat
  failed : Nat
  errors : List String
deriving Repr, DecidableEq

/-- `SupabaseResult.to_dict`: note `self.errors[:10]`. -/
def SupabaseResult.to_dict (r : SupabaseResult) : SupabaseResultDict :=
  { total_events := r.total, successful := r.successful, failed := r.failed,
    errors := r.errors.take 10 }

/-- Outcome of one `_send_batch_to_supabase` call as seen by the dispatcher:
the `(success, response_data)` pair, or `(False, message)`. -/
inductive BatchSendResult where
  | ok (data : Option BatchResponse)
  | fail (message : String)
deriving Repr, DecidableEq

/-- Success-count contribution of one batch in `send_tracking_events`. -/
def succContrib {α : Type} (r : BatchSendResult) (batch : List α) : Nat :=
  match r with
  | .ok (some d) => d.created + d.updated
  | .ok none => batch.length
  | .fail _ => 0

/-- Failure-count contribution of one batch in `send_tracking_events`. -/
def failContrib {α : Type} (r : BatchSendResult) (batch : List α) : Nat :=
  match r with
  | .ok (some d) => d.errs
  | .ok none => 0
  | .fail _ => batch.length

/-- Error-message contribution of one batch in `send_tracking_events`
(`errors.extend(details.error_messages)` on a structured success; one
`"Batch {i+1}: {message}"` summary entry on failure). -/
def errContrib (idx : Nat) (r : BatchSendResult) : List String :=
  match r with
  | .ok (some d) => d.error_messages
  | .ok none => []
  | .fail m => ["Batch " ++ toString (idx + 1) ++ ": " ++ m]

/-- `SupabaseService.send_tracking_events(events)`. The per-batch delivery
outcome is an oracle indexed by batch position; the second component counts
how many batches were handed to `_send_batch_to_supabase`. -/
def send_tracking_events {α : Type} (bs : Nat) (events : List α)
    (oracle : Nat → BatchSendResult) : SupabaseResult × Nat :=
  if events.isEmpty then (⟨0, 0, 0, []⟩, 0)
  else
    (chunk_events bs events).enum.foldl
      (fun acc p =>
        let r := oracle p.1
        (⟨acc.1.total, acc.1.successful + succContrib r p.2,
          acc.1.failed + failContrib r p.2,
          acc.1.errors ++ errContrib p.1 r⟩, acc.2 + 1))
      (⟨events.length, 0, 0, []⟩, 0)

/-! ## Timestamps
(`function_shipment_tracking/services/transformer_service.py::_format_timestamp`,
`functions/utils/datetime_utils.py::to_iso8601_clt`) -/

/-- A parsed wall-clock timestamp as pandas carries it: whole minutes since
1970-01-01T00:00 of the wall-clock reading, seconds within the minute,
microseconds, and the attached fixed UTC offset in minutes (`none` =
timezone-naive). -/
structure PTimestamp where
  minutes : Int
  seconds : Nat
  micros : Nat
  tz : Option Int
deriving Repr, DecidableEq

/-- Gregorian civil date `(year, month, day)` from a day count relative to
1970-01-01 (standard days-to-civil conversion). -/
def civilFromDays (z0 : Int) : Int × Nat × Nat :=
  let z := z0 + 719468
  let era := (if 0 ≤ z then z else z - 146096) / 146097
  let doe := z - era * 146097
  let yoe := (doe - doe / 1460 + doe / 36524 - doe / 146096) / 365
  let y := yoe + era * 400
  let doy := doe - (365 * yoe + yoe / 4 - yoe / 100)
  let mp := (5 * doy + 2) / 153
  let d := doy - (153 * mp + 2) / 5 + 1
  let m := if mp < 10 then mp + 3 else mp - 9
  ((if m ≤ 2 then y + 1 else y), m.toNat, d.toNat)

/-- Two-digit zero padding. -/
def pad2 (n : Nat) : String := if n < 10 then "0" ++ toString n else toString n

/-- Six-digit zero padding (microsecond field). -/
def pad6 (n : Nat) : String :=
  let s := toString n
  String.mk (List.replicate (6 - s.length) (Char.ofNat 48)) ++ s

/-- The `YYYY-MM-DDTHH:MM:SS` part of an ISO 8601 rendering. -/
def isoBase (t : PTimestamp) : String :=
  let days := t.minutes.ediv 1440
  let rem := (t.minutes.emod 1440).toNat
  let c := civilFromDays days
  toString c.1 ++ "-" ++ pad2 c.2.1 ++ "-" ++ pad2 c.2.2 ++ "T" ++
    pad2 (rem / 60) ++ ":" ++ pad2 (rem % 60) ++ ":" ++ pad2 t.seconds

/-- The `±HH:MM` offset suffix. -/
def offsetStr (off : Int) : String :=
  (if off < 0 then "-" else "+") ++
    pad2 (off.natAbs / 60) ++ ":" ++ pad2 (off.natAbs % 60)

/-- `Timestamp.isoformat(timespec="seconds")` of a timezone-aware value. -/
def isoformatSeconds (t : PTimestamp) (off : Int) : String :=
  isoBase t ++ offsetStr off

/-- `Timestamp.isoformat()` (timespec `auto`): fractional seconds are kept
whenever they are nonzero. -/
def isoformatAuto (t : PTimestamp) (off : Int) : String :=
  if t.micros = 0 then isoformatSeconds t off
  else isoBase t ++ "." ++ pad6 t.micros ++ offsetStr off

/-- The inputs the two timestamp formatters can receive: a missing value
(`None`/`NaN`/`NaT`), a textual date `pd.to_datetime(·, errors="coerce")`
fails to parse (yielding `NaT`), or a parsed timestamp. -/
inductive TsInput where
  | missing
  | unparseable (raw : String)
  | parsed (t : PTimestamp)
deriving Repr, DecidableEq

/-- `ShipmentTransformerService._format_timestamp`: missing/unparseable →
`None`; naive values are `tz_localize("UTC")`-ed (offset 0, wall clock
unchanged); serialized with `ts.isoformat()` — timespec `auto`. -/
def format_timestamp : TsInput → Option String
  | .missing => none
  | .unparseable _ => none
  | .parsed t => some (isoformatAuto t (t.tz.getD 0))

/-- Offset minutes of `ZoneInfo("America/Santiago")` at a given wall-clock
reading. Modelled from the spec: the IANA timezone database backing
`zoneinfo` is outside the repository; Chilean daylight saving (UTC-3,
September through March) versus standard time (UTC-4) is approximated at
month granularity, which no claim depends on. -/
def cltOffsetMinutes (t : PTimestamp) : Int :=
  let m := (civilFromDays (t.minutes.ediv 1440)).2.1
  if 4 ≤ m ∧ m ≤ 8 then -240 else -180

/-- Shift a wall-clock reading by `delta` minutes (the wall-time adjustment
`tz_convert` performs). -/
def shiftMinutes (t : PTimestamp) (delta : Int) : PTimestamp :=
  { t with minutes := t.minutes + delta }

/-- `to_iso8601_clt`: missing/unparseable → `None`; aware values are
`tz_convert`-ed to America/Santiago (same instant, CLT wall clock), naive
values `tz_localize`-d (same wall clock, CLT offset); serialized with
`ts.isoformat(timespec="seconds")`. -/
def to_iso8601_clt : TsInput → Option String
  | .missing => none
  | .unparseable _ => none
  | .parsed t =>
    match t.tz with
    | some off =>
      let utc := shiftMinutes t (-off)
      let cltOff := cltOffsetMinutes utc
      some (isoformatSeconds (shiftMinutes utc cltOff) cltOff)
    | none => some (isoformatSeconds t (cltOffsetMinutes t))

/-! ## Record mappers
(`function_shipment_tracking/services/transformer_service.py`,
`functions/services/transformer_service.py`,
`function_shipment_tracking/company_mapping.py`) -/

/-- `COMPANY_NAME_TO_UUID` from `company_mapping.py`. -/
def COMPANY_NAME_TO_UUID : List (String × String) :=
  [("bamo_company", "c12585ee-c8f4-4103-b7f0-37bd62401a65")]

/-- `get_company_uuid`: raises `ValueError` on a name absent from the fixed
table. -/
def get_company_uuid (company_name : String) : Except String String :=
  match assocLookup COMPANY_NAME_TO_UUID company_name with
  | some u => Except.ok u
  | none =>
    Except.error ("Company '" ++ company_name ++ "' not found in mapping.")

/-- A JSON-like payload value, so that an emitted `None` is distinguishable
from an omitted key. -/
inductive JVal where
  | str (s : String)
  | num (n : Int)
  | null
  | obj (fields : List (String × JVal))

/-- One BigQuery tracking row as `_build_tracking_event` reads it (required
fields already validated by `_validate_required_fields`; optional fields are
`none` when missing or NaN). -/
structure TrackingRow where
  marketplace_order_id : String
  marketplace : String
  company_id : String
  event_status : String
  event_timestamp : TsInput
  event_location : Option String
  courier_name : Option String
  tracking_number : Option String
  notes : Option String

/-- One optional-field step of `_build_tracking_event`'s loop: the field is
emitted, trimmed, only when present and non-blank
(`not pd.isna(value) and value is not None and str(value).strip()`). -/
def optionalField (k : String) (v : Option String) : List (String × JVal) :=
  match v with
  | some s => if pyStrip s = "" then [] else [(k, JVal.str (pyStrip s))]
  | none => []

/-- `ShipmentTransformerService._build_tracking_event(row)`; the two raising
paths (invalid timestamp, unknown company) become `Except.error`. -/
def build_tracking_event (row : TrackingRow) :
    Except String (List (String × JVal)) :=
  let normalized_status := normalize_status row.event_status row.marketplace
  match format_timestamp row.event_timestamp with
  | none =>
    Except.error ("Invalid event_timestamp for order " ++ row.marketplace_order_id)
  | some event_timestamp =>
    match get_company_uuid row.company_id with
    | .error e =>
      Except.error ("Company mapping error for order " ++
        row.marketplace_order_id ++ ": " ++ e)
    | .ok company_uuid =>
      Except.ok
        ([("marketplace_order_id", JVal.str row.marketplace_order_id),
          ("marketplace", JVal.str (pyLower row.marketplace)),
          ("company_id", JVal.str company_uuid),
          ("event_status", JVal.str normalized_status),
          ("event_timestamp", JVal.str event_timestamp)] ++
         optionalField "event_location" row.event_location ++
         optionalField "courier_name" row.courier_name ++
         optionalField "tracking_number" row.tracking_number ++
         optionalField "notes" row.notes)

/-- One BigQuery order row of the second delivery flow, carrying both the
order-level fields (read from the group's first row) and the line-item
fields. -/
structure OrderRow where
  order_id : String
  seller_sku : String
  quantity : Int
  sku_name : String
  market_place_match_id : String
  order_item_id : String
  shipping_id : String
  status : String
  shipping_status : String
  logistic_type : String
  marketplace : String
  order_created_at : TsInput
  shipping_promise_date : TsInput

/-- The value `sku_dict[seller_sku]` is assigned for one row. -/
structure SkuEntry where
  quantity : Int
  name : String
  market_place_match_id : String
  order_item_id : String

/-- Python `dict` assignment `d[k] = v` on an insertion-ordered dict:
an existing key keeps its position and gets the new value, a new key is
appended. -/
def dictInsert {α : Type} (m : List (String × α)) (k : String) (v : α) :
    List (String × α) :=
  if m.any (fun p => p.1 == k) then
    m.map (fun p => if p.1 == k then (k, v) else p)
  else m ++ [(k, v)]

/-- Keys of an insertion-ordered dict, in order. -/
def dictKeys {α : Type} (m : List (String × α)) : List String := m.map Prod.fst

/-- One iteration of `_build_sku_dict`'s loop:
`sku_dict[str(row['seller_sku'])] = {...}`. -/
def skuStep (m : List (String × SkuEntry)) (row : OrderRow) :
    List (String × SkuEntry) :=
  dictInsert m row.seller_sku
    { quantity := row.quantity, name := row.sku_name,
      market_place_match_id := row.market_place_match_id,
      order_item_id := row.order_item_id }

/-- `OrderTransformerService._build_sku_dict(group)`. -/
def build_sku_dict (group : List OrderRow) : List (String × SkuEntry) :=
  group.foldl skuStep []

/-- Rendering of the sku dict inside the webhook payload. -/
def skuDictToJVal (m : List (String × SkuEntry)) : JVal :=
  JVal.obj (m.map (fun p =>
    (p.1, JVal.obj
      [("quantity", JVal.num p.2.quantity),
       ("name", JVal.str p.2.name),
       ("market_place_match_id", JVal.str p.2.market_place_match_id),
       ("order_item_id", JVal.str p.2.order_item_id)])))

/-- `OrderTransformerService._build_webhook_payload(order_id, first_row,
sku_dict)`: raises (`Except.error`) when `order_created_at` is missing or
unparseable; `shipping_promise_date` is always emitted, as `None` when
missing or unparseable. -/
def build_webhook_payload (order_id : String) (first_row : OrderRow)
    (sku_dict : List (String × SkuEntry)) :
    Except String (List (String × JVal)) :=
  let order_created_iso := to_iso8601_clt first_row.order_created_at
  let shipping_promise_iso := to_iso8601_clt first_row.shipping_promise_date
  match order_created_iso with
  | none =>
    Except.error ("Missing required date field: order_created_at for order " ++
      order_id)
  | some created =>
    Except.ok
      [("order", JVal.str order_id),
       ("shipping_id", JVal.str first_row.shipping_id),
       ("status", JVal.str first_row.status),
       ("shipping_status", JVal.str first_row.shipping_status),
       ("logistic_type", JVal.str first_row.logistic_type),
       ("market_place", JVal.str first_row.marketplace),
       ("order_created_at", JVal.str created),
       ("shipping_promise_date",
         match shipping_promise_iso with
         | some s => JVal.str s
         | none => JVal.null),
       ("sku", skuDictToJVal sku_dict)]

/-- Concrete rows for the grouped-flow claims: two rows of one order sharing
the seller SKU "S1", and one with the distinct SKU "S2". -/
def c3row1 : OrderRow :=
  { order_id := "A1", seller_sku := "S1", quantity := 1, sku_name := "first",
    market_place_match_id := "m1", order_item_id := "i1", shipping_id := "sh",
    status := "paid", shipping_status := "pending", logistic_type := "own",
    marketplace := "meli", order_created_at := TsInput.missing,
    shipping_promise_date := TsInput.missing }

def c3row2 : OrderRow :=
  { c3row1 with sku_name := "second", order_item_id := "i2", quantity := 2 }

def c3row3 : OrderRow :=
  { c3row1 with seller_sku := "S2", order_item_id := "i3" }

/-- The optional-field contract of the shipment event for one key: every
occurrence of the key carries exactly the trimmed, non-blank source string
(never null, never empty — so a missing or blank source value leaves the key
out entirely), and the key does occur whenever the source value is present
and non-blank. -/
def optOk (ev : List (String × JVal)) (k : String) (x : Option String) : Prop :=
  (∀ v, (k, v) ∈ ev →
    ∃ s, x = some s ∧ pyStrip s ≠ "" ∧ v = JVal.str (pyStrip s)) ∧
  (∀ s, x = some s → pyStrip s ≠ "" → (k, JVal.str (pyStrip s)) ∈ ev)

/-- A tracking row whose optional values exercise all three cases: non-blank
(kept trimmed), blank (dropped), missing (dropped). -/
def c4row : TrackingRow :=
  { marketplace_order_id := "O1", marketplace := "meli",
    company_id := "bamo_company", event_status := "shipped",
    event_timestamp := TsInput.parsed ⟨0, 0, 0, none⟩,
    event_location := some "  Santiago  ", courier_name := some "   ",
    tracking_number := none, notes := some "ok" }

/-- The event `_build_tracking_event` emits for `c4row`. -/
def c4event : List (String × JVal) :=
  [("marketplace_order_id", JVal.str "O1"), ("marketplace", JVal.str "meli"),
   ("company_id", JVal.str "c12585ee-c8f4-4103-b7f0-37bd62401a65"),
   ("event_status", JVal.str "dispatched"),
   ("event_timestamp", JVal.str "1970-01-01T00:00:00+00:00"),
   ("event_location", JVal.str "Santiago"), ("notes", JVal.str "ok")]

/-- An order row with a parseable creation date but an unparseable shipping
promise date. -/
def c4orderRow : OrderRow :=
  { c3row1 with order_created_at := TsInput.parsed ⟨0, 0, 0, none⟩,
                shipping_promise_date := TsInput.unparseable "not-a-date" }

/-- The payload `_build_webhook_payload` emits for `c4orderRow`. -/
def c4payload : List (String × JVal) :=
  [("order", JVal.str "A1"), ("shipping_id", JVal.str "sh"),
   ("status", JVal.str "paid"), ("shipping_status", JVal.str "pending"),
   ("logistic_type", JVal.str "own"), ("market_place", JVal.str "meli"),
   ("order_created_at", JVal.str "1970-01-01T00:00:00-03:00"),
   ("shipping_promise_date", JVal.null), ("sku", JVal.obj [])]

/-- An order row with a parseable creation date and an unparseable shipping
promise date, for the timestamp claim. -/
def c5orderRow : OrderRow :=
  { c3row1 with order_id := "A2",
                order_created_at := TsInput.parsed ⟨0, 0, 0, none⟩,
                shipping_promise_date := TsInput.unparseable "garbage" }

/-- The payload `_build_webhook_payload` emits for `c5orderRow`. -/
def c5payload : List (String × JVal) :=
  [("order", JVal.str "A2"), ("shipping_id", JVal.str "sh"),
   ("status", JVal.str "paid"), ("shipping_status", JVal.str "pending"),
   ("logistic_type", JVal.str "own"), ("market_place", JVal.str "meli"),
   ("order_created_at", JVal.str "1970-01-01T00:00:00-03:00"),
   ("shipping_promise_date", JVal.null), ("sku", JVal.obj [])]

theorem assocLookup_mem {α : Type} {m : List (String × α)} {k : String} {v : α}
    (h : assocLookup m k = some v) : ∃ p ∈ m, p.2 = v := by
  unfold assocLookup at h
  cases hf : m.find? (fun p => p.1 == k) with
  | none => simp [hf] at h
  | some q =>
    refine ⟨q, List.mem_of_find?_eq_some hf, ?_⟩
    simp [hf] at h
    exact h

theorem generalLookup_mem {s v : String}
    (h : generalLookup s = some v) : v ∈ get_supported_statuses := by
  unfold generalLookup at h
  cases hf : PLUGUP_STATUS_MAPPING.find?
      (fun p => (p.2.map pyLower).contains s) with
  | none => rw [hf] at h; simp at h
  | some q =>
    rw [hf] at h
    have hq : q ∈ PLUGUP_STATUS_MAPPING := List.mem_of_find?_eq_some hf
    have hv : q.1 = v := by simpa using h
    exact hv ▸ List.mem_map_of_mem Prod.fst hq

/-- Every value of every marketplace-specific table is a canonical status. -/
theorem marketplace_values_canonical :
    ∀ tbl ∈ MARKETPLACE_STATUS_MAPPING, ∀ q ∈ tbl.2,
      q.2 ∈ get_supported_statuses := by decide

/-- C6: an input pair that matches neither the source-specific table nor any
alias of the general table — including empty inputs — normalizes to the
default canonical status "pending" (and the function is total, hence never
raises). -/
theorem C6_unmatched_status_defaults_to_pending (raw mk : String)
    (h : raw = "" ∨ mk = "" ∨
      (assocLookup ((assocLookup MARKETPLACE_STATUS_MAPPING
          (pyClean mk)).getD []) (pyClean raw) = none ∧
        generalLookup (pyClean raw) = none)) :
    normalize_status raw mk = "pending" := by
  unfold normalize_status
  rcases h with h | h | ⟨h1, h2⟩
  · simp [h]
  · simp [h]
  · by_cases he : raw = "" ∨ mk = ""
    · simp [he]
    · simp only [he, if_false]
      simp [h1, h2]

/-- C6 witness: the unrecognized pair ("definitely-unknown", "meli")
normalizes to "pending". -/
theorem C6_witness :
    normalize_status "definitely-unknown" "meli" = "pending" :=
  C6_unmatched_status_defaults_to_pending "definitely-unknown" "meli"
    (by right; right; constructor <;> decide)

/-- C10: `normalize_status` always returns a member of the canonical status
set, and the marketplace tables are validated against that set at import
(`validate_status_mapping` holds). -/
theorem C10_normalize_returns_canonical :
    validate_status_mapping = true ∧
    ∀ raw mk : String, normalize_status raw mk ∈ get_supported_statuses := by
  refine ⟨by decide, fun raw mk => ?_⟩
  unfold normalize_status
  by_cases he : raw = "" ∨ mk = ""
  · simp [he]; decide
  · simp only [he, if_false]
    cases hm : assocLookup ((assocLookup MARKETPLACE_STATUS_MAPPING
        (pyClean mk)).getD []) (pyClean raw) with
    | some v =>
      simp only [hm]
      obtain ⟨p, hp, hpv⟩ := assocLookup_mem hm
      cases ho : assocLookup MARKETPLACE_STATUS_MAPPING (pyClean mk) with
      | none => simp [ho] at hp
      | some tbl =>
        obtain ⟨t, ht, htv⟩ := assocLookup_mem ho
        have := marketplace_values_canonical t ht p (by
          simp [ho] at hp
          exact htv ▸ hp)
        exact hpv ▸ this
    | none =>
      simp only [hm]
      cases hg : generalLookup (pyClean raw) with
      | some v => simp only [hg]; exact generalLookup_mem hg
      | none => simp only [hg]; decide

theorem sendBatch_connectionError_step (maxRetries timeoutSecs : Nat)
    (oracle : Nat → AttemptOutcome) (rc : Nat) (m : String)
    (ho : oracle rc = .connectionError m) :
    sendBatchToSupabase maxRetries timeoutSecs oracle rc =
      { success := false, message := "Connection error: " ++ m,
        data := none, attempts := 1, sleeps := [] } := by
  rw [sendBatchToSupabase.eq_def, ho]

theorem sendBatch_requestException_step (maxRetries timeoutSecs : Nat)
    (oracle : Nat → AttemptOutcome) (rc : Nat) (m : String)
    (ho : oracle rc = .requestException m) :
    sendBatchToSupabase maxRetries timeoutSecs oracle rc =
      { success := false, message := "Request exception: " ++ m,
        data := none, attempts := 1, sleeps := [] } := by
  rw [sendBatchToSupabase.eq_def, ho]

theorem sendBatch_otherException_step (maxRetries timeoutSecs : Nat)
    (oracle : Nat → AttemptOutcome) (rc : Nat) (m : String)
    (ho : oracle rc = .otherException m) :
    sendBatchToSupabase maxRetries timeoutSecs oracle rc =
      { success := false, message := "Unexpected exception: " ++ m,
        data := none, attempts := 1, sleeps := [] } := by
  rw [sendBatchToSupabase.eq_def, ho]

theorem sendBatch_timeout_step (maxRetries timeoutSecs : Nat)
    (oracle : Nat → AttemptOutcome) (rc : Nat)
    (ho : oracle rc = .timeout) :
    sendBatchToSupabase maxRetries timeoutSecs oracle rc =
      if _h : rc < maxRetries then
        let r := sendBatchToSupabase maxRetries timeoutSecs oracle (rc + 1)
        { r with attempts := r.attempts + 1, sleeps := 2 ^ rc :: r.sleeps }
      else
        { success := false,
          message := "Timeout after " ++ toString timeoutSecs ++ "s",
          data := none, attempts := 1, sleeps := [] } := by
  rw [sendBatchToSupabase.eq_def, ho]

theorem sendBatch_http_step (maxRetries timeoutSecs : Nat)
    (oracle : Nat → AttemptOutcome) (rc status : Nat) (body : String)
    (json : Option BatchResponse)
    (ho : oracle rc = .httpResponse status body json) :
    sendBatchToSupabase maxRetries timeoutSecs oracle rc =
      if status = 200 then
        { success := true, message := "Success: " ++ toString status,
          data := json, attempts := 1, sleeps := [] }
      else if _h : 500 ≤ status ∧ rc < maxRetries then
        let r := sendBatchToSupabase maxRetries timeoutSecs oracle (rc + 1)
        { r with attempts := r.attempts + 1, sleeps := 2 ^ rc :: r.sleeps }
      else
        { success := false,
          message := "Failed: " ++ toString status ++ " - " ++ pyTrunc 200 body,
          data := none, attempts := 1, sleeps := [] } := by
  rw [sendBatchToSupabase.eq_def, ho]

theorem order_http_step (maxRetries timeoutSecs : Nat)
    (oracle : Nat → OrderAttemptOutcome) (rc status : Nat) (body : String)
    (ho : oracle rc = .httpResponse status body) :
    sendSingleOrder maxRetries timeoutSecs oracle rc =
      if status = 200 ∨ status = 201 then
        { success := true, message := "Success: " ++ toString status,
          attempts := 1, sleeps := [] }
      else if _h : 500 ≤ status ∧ rc < maxRetries then
        let r := sendSingleOrder maxRetries timeoutSecs oracle (rc + 1)
        { r with attempts := r.attempts + 1, sleeps := 2 ^ rc :: r.sleeps }
      else
        { success := false,
          message := "Failed: " ++ toString status ++ " - " ++ pyTrunc 100 body,
          attempts := 1, sleeps := [] } := by
  rw [sendSingleOrder.eq_def, ho]

theorem order_timeout_step (maxRetries timeoutSecs : Nat)
    (oracle : Nat → OrderAttemptOutcome) (rc : Nat)
    (ho : oracle rc = .timeout) :
    sendSingleOrder maxRetries timeoutSecs oracle rc =
      if _h : rc < maxRetries then
        let r := sendSingleOrder maxRetries timeoutSecs oracle (rc + 1)
        { r with attempts := r.attempts + 1, sleeps := 2 ^ rc :: r.sleeps }
      else
        { success := false,
          message := "Timeout after " ++ toString timeoutSecs ++ "s",
          attempts := 1, sleeps := [] } := by
  rw [sendSingleOrder.eq_def, ho]

theorem order_exception_step (maxRetries timeoutSecs : Nat)
    (oracle : Nat → OrderAttemptOutcome) (rc : Nat) (m : String)
    (ho : oracle rc = .exception m) :
    sendSingleOrder maxRetries timeoutSecs oracle rc =
      { success := false, message := "Exception: " ++ m,
        attempts := 1, sleeps := [] } := by
  rw [sendSingleOrder.eq_def, ho]

theorem sendBatchToSupabase_attempts_le (maxRetries timeoutSecs : Nat)
    (oracle : Nat → AttemptOutcome) :
    ∀ (fuel rc : Nat), maxRetries ≤ rc + fuel →
      (sendBatchToSupabase maxRetries timeoutSecs oracle rc).attempts ≤ fuel + 1 := by
  intro fuel
  induction fuel with
  | zero =>
    intro rc h
    cases hor : oracle rc with
    | httpResponse status body json =>
      rw [sendBatch_http_step maxRetries timeoutSecs oracle rc status body json hor]
      split
      · exact Nat.le_refl 1
      · split
        · exfalso; omega
        · exact Nat.le_refl 1
    | timeout =>
      rw [sendBatch_timeout_step maxRetries timeoutSecs oracle rc hor]
      split
      · exfalso; omega
      · exact Nat.le_refl 1
    | connectionError m =>
      rw [sendBatch_connectionError_step maxRetries timeoutSecs oracle rc m hor]
    | requestException m =>
      rw [sendBatch_requestException_step maxRetries timeoutSecs oracle rc m hor]
    | otherException m =>
      rw [sendBatch_otherException_step maxRetries timeoutSecs oracle rc m hor]
  | succ n ih =>
    intro rc h
    cases hor : oracle rc with
    | httpResponse status body json =>
      rw [sendBatch_http_step maxRetries timeoutSecs oracle rc status body json hor]
      split
      · exact Nat.le_add_left 1 (n + 1)
      · split
        · exact Nat.succ_le_succ (ih (rc + 1) (by omega))
        · exact Nat.le_add_left 1 (n + 1)
    | timeout =>
      rw [sendBatch_timeout_step maxRetries timeoutSecs oracle rc hor]
      split
      · exact Nat.succ_le_succ (ih (rc + 1) (by omega))
      · exact Nat.le_add_left 1 (n + 1)
    | connectionError m =>
      rw [sendBatch_connectionError_step maxRetries timeoutSecs oracle rc m hor]
      exact Nat.le_add_left 1 (n + 1)
    | requestException m =>
      rw [sendBatch_requestException_step maxRetries timeoutSecs oracle rc m hor]
      exact Nat.le_add_left 1 (n + 1)
    | otherException m =>
      rw [sendBatch_otherException_step maxRetries timeoutSecs oracle rc m hor]
      exact Nat.le_add_left 1 (n + 1)

theorem sendSingleOrder_attempts_le (maxRetries timeoutSecs : Nat)
    (oracle : Nat → OrderAttemptOutcome) :
    ∀ (fuel rc : Nat), maxRetries ≤ rc + fuel →
      (sendSingleOrder maxRetries timeoutSecs oracle rc).attempts ≤ fuel + 1 := by
  intro fuel
  induction fuel with
  | zero =>
    intro rc h
    cases hor : oracle rc with
    | httpResponse status body =>
      rw [order_http_step maxRetries timeoutSecs oracle rc status body hor]
      split
      · exact Nat.le_refl 1
      · split
        · exfalso; omega
        · exact Nat.le_refl 1
    | timeout =>
      rw [order_timeout_step maxRetries timeoutSecs oracle rc hor]
      split
      · exfalso; omega
      · exact Nat.le_refl 1
    | exception m =>
      rw [order_exception_step maxRetries timeoutSecs oracle rc m hor]
  | succ n ih =>
    intro rc h
    cases hor : oracle rc with
    | httpResponse status body =>
      rw [order_http_step maxRetries timeoutSecs oracle rc status body hor]
      split
      · exact Nat.le_add_left 1 (n + 1)
      · split
        · exact Nat.succ_le_succ (ih (rc + 1) (by omega))
        · exact Nat.le_add_left 1 (n + 1)
    | timeout =>
      rw [order_timeout_step maxRetries timeoutSecs oracle rc hor]
      split
      · exact Nat.succ_le_succ (ih (rc + 1) (by omega))
      · exact Nat.le_add_left 1 (n + 1)
    | exception m =>
      rw [order_exception_step maxRetries timeoutSecs oracle rc m hor]
      exact Nat.le_add_left 1 (n + 1)

/-- C9: both delivery clients' retry recursion terminates after at most
`maxRetries` retries beyond the initial attempt — at most `maxRetries + 1`
total attempts — for every sequence of attempt outcomes. -/
theorem C9_retry_recursion_bounded (maxRetries timeoutSecs : Nat)
    (oracle : Nat → AttemptOutcome) (orderOracle : Nat → OrderAttemptOutcome) :
    (sendBatchToSupabase maxRetries timeoutSecs oracle 0).attempts ≤ maxRetries + 1 ∧
    (sendSingleOrder maxRetries timeoutSecs orderOracle 0).attempts ≤ maxRetries + 1 :=
  ⟨sendBatchToSupabase_attempts_le maxRetries timeoutSecs oracle maxRetries 0 (by omega),
   sendSingleOrder_attempts_le maxRetries timeoutSecs orderOracle maxRetries 0 (by omega)⟩

theorem sendBatchToSupabase_all_timeout (maxRetries timeoutSecs : Nat)
    (oracle : Nat → AttemptOutcome) (ho : ∀ i, oracle i = .timeout) :
    ∀ (fuel rc : Nat), maxRetries = rc + fuel →
      sendBatchToSupabase maxRetries timeoutSecs oracle rc =
        { success := false,
          message := "Timeout after " ++ toString timeoutSecs ++ "s",
          data := none, attempts := fuel + 1,
          sleeps := (List.range' rc fuel).map (fun i => 2 ^ i) } := by
  intro fuel
  induction fuel with
  | zero =>
    intro rc h
    rw [sendBatch_timeout_step maxRetries timeoutSecs oracle rc (ho rc),
      dif_neg (by omega)]
    rfl
  | succ n ih =>
    intro rc h
    rw [sendBatch_timeout_step maxRetries timeoutSecs oracle rc (ho rc),
      dif_pos (by omega : rc < maxRetries), ih (rc + 1) (by omega)]
    simp [List.range'_succ]

/-- C1 counterexample: with `max_retries = 3` — retry attempts remaining —
a first-attempt connection failure is terminal immediately: exactly one
attempt, no backoff sleep, failure message carrying the cause. The claim's
required retry never happens. -/
theorem C1_counterexample :
    (0 : Nat) < 3 ∧
    sendBatchToSupabase 3 30 (fun _ => .connectionError "refused") 0 =
      { success := false, message := "Connection error: refused",
        data := none, attempts := 1, sleeps := [] } :=
  ⟨by omega, sendBatch_connectionError_step 3 30 _ 0 "refused" rfl⟩

/-- C1 (amended): on transport-level timeout the client waits `2^attemptIndex`
and retries while attempts remain, reporting terminal failure with the cause
once the `maxRetries + 1` attempts are exhausted; a transport-level connection
failure is terminal at once — the cause is recorded but no retry occurs. -/
theorem C1_timeout_retries_connection_error_does_not (maxRetries timeoutSecs : Nat)
    (oT oC : Nat → AttemptOutcome) (m : String)
    (hT : ∀ i, oT i = .timeout) (hC : oC 0 = .connectionError m) :
    sendBatchToSupabase maxRetries timeoutSecs oT 0 =
      { success := false,
        message := "Timeout after " ++ toString timeoutSecs ++ "s",
        data := none, attempts := maxRetries + 1,
        sleeps := (List.range maxRetries).map (fun i => 2 ^ i) } ∧
    sendBatchToSupabase maxRetries timeoutSecs oC 0 =
      { success := false, message := "Connection error: " ++ m,
        data := none, attempts := 1, sleeps := [] } := by
  constructor
  · rw [sendBatchToSupabase_all_timeout maxRetries timeoutSecs oT hT maxRetries 0
      (by omega), List.range_eq_range']
  · exact sendBatch_connectionError_step maxRetries timeoutSecs oC 0 m hC

/-- C1 witness: with `max_retries = 2`, an all-timeout run makes 3 attempts
with backoff sleeps `[1, 2]`, and a connection-refused run fails on its single
attempt. -/
theorem C1_timeout_retries_connection_error_does_not_witness :
    (∀ i : Nat, (fun _ : Nat => AttemptOutcome.timeout) i = AttemptOutcome.timeout) ∧
    ((fun _ : Nat => AttemptOutcome.connectionError "refused") 0 =
      AttemptOutcome.connectionError "refused") ∧
    (sendBatchToSupabase 2 30 (fun _ => AttemptOutcome.timeout) 0 =
      { success := false, message := "Timeout after 30s", data := none,
        attempts := 3, sleeps := [1, 2] } ∧
     sendBatchToSupabase 2 30 (fun _ => AttemptOutcome.connectionError "refused") 0 =
      { success := false, message := "Connection error: refused", data := none,
        attempts := 1, sleeps := [] }) :=
  ⟨fun _ => rfl, rfl,
    C1_timeout_retries_connection_error_does_not 2 30 _ _ "refused"
      (fun _ => rfl) rfl⟩

theorem chunkGo_nil {α : Type} (bs fuel : Nat) :
    chunkGo bs fuel ([] : List α) = [] := by
  cases fuel <;> rfl

theorem chunkGo_join {α : Type} (bs : Nat) (hbs : 1 ≤ bs) :
    ∀ (fuel : Nat) (l : List α), l.length ≤ fuel → (chunkGo bs fuel l).flatten = l := by
  intro fuel
  induction fuel with
  | zero =>
    intro l h
    have hl : l = [] := List.length_eq_zero.mp (Nat.le_zero.mp h)
    subst hl; rfl
  | succ n ih =>
    intro l h
    cases l with
    | nil => rfl
    | cons e rest =>
      simp only [chunkGo, List.flatten_cons]
      rw [ih ((e :: rest).drop bs) (by
        rw [List.length_drop, List.length_cons]
        rw [List.length_cons] at h
        omega)]
      exact List.take_append_drop bs (e :: rest)

theorem chunkGo_mem_length {α : Type} (bs : Nat) (hbs : 1 ≤ bs) :
    ∀ (fuel : Nat) (l : List α), ∀ c ∈ chunkGo bs fuel l,
      0 < c.length ∧ c.length ≤ bs := by
  intro fuel
  induction fuel with
  | zero =>
    intro l c hc
    cases l <;> simp [chunkGo] at hc
  | succ n ih =>
    intro l c hc
    cases l with
    | nil => simp [chunkGo] at hc
    | cons e rest =>
      simp only [chunkGo, List.mem_cons] at hc
      rcases hc with rfl | hc
      · constructor <;> (rw [List.length_take, List.length_cons]; omega)
      · exact ih _ c hc

theorem chunkGo_dropLast {α : Type} (bs : Nat) (hbs : 1 ≤ bs) :
    ∀ (fuel : Nat) (l : List α), l.length ≤ fuel →
      ∀ c ∈ (chunkGo bs fuel l).dropLast, c.length = bs := by
  intro fuel
  induction fuel with
  | zero =>
    intro l h c hc
    have hl : l = [] := List.length_eq_zero.mp (Nat.le_zero.mp h)
    subst hl
    simp [chunkGo] at hc
  | succ n ih =>
    intro l h c hc
    cases l with
    | nil => simp [chunkGo] at hc
    | cons e rest =>
      simp only [chunkGo] at hc
      cases hrec : chunkGo bs n ((e :: rest).drop bs) with
      | nil => rw [hrec] at hc; simp at hc
      | cons x xs =>
        rw [hrec] at hc
        have hdl : ((e :: rest).take bs :: x :: xs).dropLast
            = (e :: rest).take bs :: (x :: xs).dropLast := rfl
        rw [hdl, List.mem_cons] at hc
        rcases hc with rfl | hc
        · have hne : (e :: rest).drop bs ≠ [] := by
            intro hnil
            rw [hnil, chunkGo_nil] at hrec
            exact List.noConfusion hrec
          have hlen : bs < (e :: rest).length := by
            by_contra hle
            push_neg at hle
            exact hne (List.drop_eq_nil_of_le hle)
          rw [List.length_take]
          omega
        · refine ih ((e :: rest).drop bs) ?_ c (by rw [hrec]; exact hc)
          rw [List.length_drop, List.length_cons]
          rw [List.length_cons] at h
          omega

theorem dispatch_foldl {α : Type} (oracle : Nat → BatchSendResult) :
    ∀ (l : List (Nat × List α)) (init : SupabaseResult × Nat),
      l.foldl (fun acc p =>
        let r := oracle p.1
        (⟨acc.1.total, acc.1.successful + succContrib r p.2,
          acc.1.failed + failContrib r p.2,
          acc.1.errors ++ errContrib p.1 r⟩, acc.2 + 1)) init =
      (⟨init.1.total,
        init.1.successful + (l.map (fun p => succContrib (oracle p.1) p.2)).sum,
        init.1.failed + (l.map (fun p => failContrib (oracle p.1) p.2)).sum,
        init.1.errors ++ (l.map (fun p => errContrib p.1 (oracle p.1))).flatten⟩,
       init.2 + l.length) := by
  intro l
  induction l with
  | nil =>
    intro init
    simp
  | cons x xs ih =>
    intro init
    rw [List.foldl_cons, ih]
    simp only [List.map_cons, List.sum_cons, List.flatten_cons, List.length_cons,
      Prod.mk.injEq, SupabaseResult.mk.injEq]
    refine ⟨⟨trivial, by omega, by omega, ?_⟩, by omega⟩
    rw [List.append_assoc]

/-- The dispatcher's aggregate, in closed form: totals from the input, counts
and error messages summed/joined over every batch's contribution, and one
delivery attempt per batch. -/
theorem send_tracking_events_spec {α : Type} (bs : Nat) (events : List α)
    (oracle : Nat → BatchSendResult) :
    send_tracking_events bs events oracle =
      (⟨events.length,
        ((chunk_events bs events).enum.map
          (fun p => succContrib (oracle p.1) p.2)).sum,
        ((chunk_events bs events).enum.map
          (fun p => failContrib (oracle p.1) p.2)).sum,
        ((chunk_events bs events).enum.map
          (fun p => errContrib p.1 (oracle p.1))).flatten⟩,
       (chunk_events bs events).length) := by
  cases events with
  | nil => rfl
  | cons e rest =>
    unfold send_tracking_events
    rw [if_neg (by simp)]
    rw [dispatch_foldl]
    simp [List.enum_length]

/-- C7: when batch `k` terminally fails, the dispatcher adds that batch's
full item count to `failed` and appends exactly one summary message
"Batch {k+1}: {message}" for it, while still attempting every batch: the
aggregate is assembled from all batches' contributions, one delivery attempt
per batch, with no early abort. -/
theorem C7_failed_batch_counted_and_loop_continues {α : Type} (bs : Nat)
    (events : List α) (oracle : Nat → BatchSendResult) (k : Nat) (b : List α)
    (msg : String)
    (hk : (chunk_events bs events).get? k = some b)
    (ho : oracle k = .fail msg) :
    (send_tracking_events bs events oracle).2 =
      (chunk_events bs events).length ∧
    (send_tracking_events bs events oracle).1.failed =
      ((chunk_events bs events).enum.map
        (fun p => failContrib (oracle p.1) p.2)).sum ∧
    ((chunk_events bs events).enum.map
        (fun p => failContrib (oracle p.1) p.2)).get? k = some b.length ∧
    (send_tracking_events bs events oracle).1.errors =
      ((chunk_events bs events).enum.map
        (fun p => errContrib p.1 (oracle p.1))).flatten ∧
    ((chunk_events bs events).enum.map
        (fun p => errContrib p.1 (oracle p.1))).get? k =
      some ["Batch " ++ toString (k + 1) ++ ": " ++ msg] ∧
    ("Batch " ++ toString (k + 1) ++ ": " ++ msg) ∈
      (send_tracking_events bs events oracle).1.errors := by
  have hg : ((chunk_events bs events).enum.map
      (fun p => errContrib p.1 (oracle p.1))).get? k =
      some ["Batch " ++ toString (k + 1) ++ ": " ++ msg] := by
    rw [List.get?_map, List.get?_enum, hk]
    simp [ho, errContrib]
  refine ⟨?_, ?_, ?_, ?_, hg, ?_⟩
  · rw [send_tracking_events_spec]
  · rw [send_tracking_events_spec]
  · rw [List.get?_map, List.get?_enum, hk]
    simp [ho, failContrib]
  · rw [send_tracking_events_spec]
  · rw [send_tracking_events_spec]
    show _ ∈ ((chunk_events bs events).enum.map
      (fun p => errContrib p.1 (oracle p.1))).flatten
    exact List.mem_flatten.mpr
      ⟨["Batch " ++ toString (k + 1) ++ ": " ++ msg],
        List.get?_mem hg, List.mem_singleton_self _⟩

/-- C7 witness: batches `[10, 20]` and `[30]`; the first fails with "boom",
and the summary message "Batch 1: boom" ends up in the aggregate errors. -/
theorem C7_failed_batch_counted_and_loop_continues_witness :
    ((chunk_events 2 [10, 20, 30]).get? 0 = some [10, 20]) ∧
    ((fun i => if i = 0 then BatchSendResult.fail "boom"
        else BatchSendResult.ok none) 0 = BatchSendResult.fail "boom") ∧
    ("Batch " ++ toString (0 + 1) ++ ": " ++ "boom") ∈
      (send_tracking_events 2 [10, 20, 30]
        (fun i => if i = 0 then BatchSendResult.fail "boom"
          else BatchSendResult.ok none)).1.errors :=
  ⟨rfl, rfl,
    (C7_failed_batch_counted_and_loop_continues 2 [10, 20, 30]
      (fun i => if i = 0 then BatchSendResult.fail "boom"
        else BatchSendResult.ok none) 0 [10, 20] "boom" rfl rfl).2.2.2.2.2⟩

/-- C2 counterexample: eleven failing single-event batches leave eleven
error messages in the `SupabaseResult` the dispatcher returns — the
in-memory list the result carries is not capped at 10 entries. -/
theorem C2_counterexample :
    (send_tracking_events 1 (List.replicate 11 (0 : Nat))
      (fun _ => BatchSendResult.fail "x")).1.errors.length = 11 ∧
    ¬ ((send_tracking_events 1 (List.replicate 11 (0 : Nat))
      (fun _ => BatchSendResult.fail "x")).1.errors.length ≤ 10) := by
  constructor
  · rfl
  · decide

/-- C2 (amended): the dispatcher appends per-item and summary error messages
without any cap, so the returned result's in-memory list may exceed 10
entries; the 10-entry bound holds of the serialized dictionary only:
`to_dict` keeps the first 10 messages, oldest retained first (a prefix of
the accumulated list). -/
theorem C2_errors_capped_only_in_to_dict {α : Type} (bs : Nat)
    (events : List α) (oracle : Nat → BatchSendResult) :
    (send_tracking_events bs events oracle).1.errors =
      ((chunk_events bs events).enum.map
        (fun p => errContrib p.1 (oracle p.1))).flatten ∧
    (send_tracking_events bs events oracle).1.to_dict.errors.length ≤ 10 ∧
    (send_tracking_events bs events oracle).1.to_dict.errors <+:
      (send_tracking_events bs events oracle).1.errors := by
  refine ⟨?_, ?_, ?_⟩
  · rw [send_tracking_events_spec]
  · show ((send_tracking_events bs events oracle).1.errors.take 10).length ≤ 10
    rw [List.length_take]
    omega
  · exact List.take_prefix 10 _

set_option maxRecDepth 20000 in
/-- C8: with batch size 100 and 250 payloads the dispatcher forms exactly the
batches of sizes 100, 100, 50, in order, and issues exactly 3 delivery
attempts when all succeed; in general the chunks concatenate back to the
input, every chunk is nonempty and no longer than the batch size, and every
chunk except the last has exactly the batch size. -/
theorem C8_batch_partitioning :
    ((chunk_events 100 (List.replicate 250 (0 : Nat))).map List.length =
      [100, 100, 50] ∧
     (send_tracking_events 100 (List.replicate 250 (0 : Nat))
       (fun _ => BatchSendResult.ok none)).2 = 3) ∧
    ∀ (bs : Nat) {α : Type} (l : List α), 1 ≤ bs →
      ((chunk_events bs l).flatten = l ∧
       (∀ c ∈ chunk_events bs l, 0 < c.length ∧ c.length ≤ bs) ∧
       (∀ c ∈ (chunk_events bs l).dropLast, c.length = bs)) := by
  constructor
  · exact ⟨rfl, rfl⟩
  · intro bs α l hbs
    exact ⟨chunkGo_join bs hbs l.length l (Nat.le_refl _),
      fun c hc => chunkGo_mem_length bs hbs l.length l c hc,
      fun c hc => chunkGo_dropLast bs hbs l.length l (Nat.le_refl _) c hc⟩

/-- C8 witness: chunk size 3 over five items re-concatenates to the input. -/
theorem C8_batch_partitioning_witness :
    (1 : Nat) ≤ 3 ∧ (chunk_events 3 [0, 1, 2, 3, 4]).flatten = [0, 1, 2, 3, 4] :=
  ⟨by decide, (C8_batch_partitioning.2 3 [0, 1, 2, 3, 4] (by decide)).1⟩

theorem dictInsert_any_iff {α : Type} (m : List (String × α)) (k : String) :
    m.any (fun p => p.1 == k) = true ↔ k ∈ dictKeys m := by
  rw [List.any_eq_true]
  unfold dictKeys
  constructor
  · rintro ⟨p, hp, hpk⟩
    exact List.mem_map.mpr ⟨p, hp, by simpa using hpk⟩
  · intro hk
    obtain ⟨p, hp, hpk⟩ := List.mem_map.mp hk
    exact ⟨p, hp, by simp [hpk]⟩

theorem dictInsert_keys {α : Type} (m : List (String × α)) (k : String) (v : α) :
    dictKeys (dictInsert m k v) =
      if k ∈ dictKeys m then dictKeys m else dictKeys m ++ [k] := by
  unfold dictInsert
  by_cases hk : k ∈ dictKeys m
  · rw [if_pos ((dictInsert_any_iff m k).mpr hk), if_pos hk]
    unfold dictKeys
    rw [List.map_map]
    apply List.map_congr_left
    intro p _
    by_cases hpk : p.1 = k
    · simp [hpk]
    · simp [hpk]
  · rw [if_neg (by
      intro hany
      exact hk ((dictInsert_any_iff m k).mp hany)), if_neg hk]
    unfold dictKeys
    rw [List.map_append]
    rfl

theorem dictInsert_length {α : Type} (m : List (String × α)) (k : String)
    (v : α) :
    (dictInsert m k v).length =
      if k ∈ dictKeys m then m.length else m.length + 1 := by
  unfold dictInsert
  by_cases hk : k ∈ dictKeys m
  · rw [if_pos ((dictInsert_any_iff m k).mpr hk), if_pos hk, List.length_map]
  · rw [if_neg (by
      intro hany
      exact hk ((dictInsert_any_iff m k).mp hany)), if_neg hk,
      List.length_append]
    rfl

theorem foldl_skuStep_length_le (g : List OrderRow) :
    ∀ (m : List (String × SkuEntry)),
      (g.foldl skuStep m).length ≤ m.length + g.length := by
  induction g with
  | nil => intro m; simp
  | cons r g ih =>
    intro m
    rw [List.foldl_cons]
    have h1 := ih (skuStep m r)
    have h2 : (skuStep m r).length ≤ m.length + 1 := by
      unfold skuStep
      rw [dictInsert_length]
      split <;> omega
    simp only [List.length_cons]
    omega

theorem foldl_skuStep_nodup (g : List OrderRow) :
    ∀ (m : List (String × SkuEntry)),
      (dictKeys m).Nodup → (dictKeys (g.foldl skuStep m)).Nodup := by
  induction g with
  | nil => intro m h; exact h
  | cons r g ih =>
    intro m h
    rw [List.foldl_cons]
    apply ih
    unfold skuStep
    rw [dictInsert_keys]
    split
    · exact h
    · next hk =>
      rw [List.nodup_append]
      refine ⟨h, List.nodup_singleton _, ?_⟩
      intro a ha hb
      rw [List.mem_singleton] at hb
      subst hb
      exact hk ha

theorem foldl_skuStep_length_eq (g : List OrderRow) :
    ∀ (m : List (String × SkuEntry)),
      (g.map (fun r => r.seller_sku)).Nodup →
      (∀ r ∈ g, r.seller_sku ∉ dictKeys m) →
      (g.foldl skuStep m).length = m.length + g.length := by
  induction g with
  | nil => intro m _ _; simp
  | cons r g ih =>
    intro m hnd hfresh
    rw [List.foldl_cons]
    have hrk : r.seller_sku ∉ dictKeys m := hfresh r (List.mem_cons_self r g)
    have hlen : (skuStep m r).length = m.length + 1 := by
      unfold skuStep
      rw [dictInsert_length, if_neg hrk]
    have hkeys : dictKeys (skuStep m r) = dictKeys m ++ [r.seller_sku] := by
      unfold skuStep
      rw [dictInsert_keys, if_neg hrk]
    rw [List.map_cons, List.nodup_cons] at hnd
    have hrec := ih (skuStep m r) hnd.2 (by
      intro r' hr' hmem
      rw [hkeys, List.mem_append, List.mem_singleton] at hmem
      rcases hmem with hmem | hmem
      · exact hfresh r' (List.mem_cons_of_mem r hr') hmem
      · exact hnd.1 (hmem ▸ List.mem_map_of_mem (fun r => r.seller_sku) hr'))
    rw [hrec, hlen]
    simp only [List.length_cons]
    omega

/-- C3 counterexample: two rows of one order sharing seller SKU "S1" collapse
to a single line item — the second row's entry overwrites the first's — so
the payload's line-item count (1) is not the group's row count (2). -/
theorem C3_counterexample :
    (build_sku_dict [c3row1, c3row2]).length = 1 ∧
    ([c3row1, c3row2] : List OrderRow).length = 2 ∧
    (build_sku_dict [c3row1, c3row2]).length ≠
      ([c3row1, c3row2] : List OrderRow).length ∧
    assocLookup (build_sku_dict [c3row1, c3row2]) "S1" =
      some { quantity := 2, name := "second",
             market_place_match_id := "m1", order_item_id := "i2" } := by
  refine ⟨rfl, rfl, by decide, rfl⟩

/-- C3 (amended): in the grouped flow each row writes one entry keyed by its
seller SKU, and a later row with a duplicate SKU silently overwrites the
earlier row's entry (last seen wins). The mapping's keys stay unique and the
line-item count never exceeds the row count; it equals the row count exactly
when the group's seller SKUs are pairwise distinct — with duplicates, rows
are lost. -/
theorem C3_sku_mapping_last_seen_wins :
    (∀ group : List OrderRow, (dictKeys (build_sku_dict group)).Nodup) ∧
    (∀ group : List OrderRow,
      (build_sku_dict group).length ≤ group.length) ∧
    (∀ group : List OrderRow,
      (group.map (fun r => r.seller_sku)).Nodup →
      (build_sku_dict group).length = group.length) := by
  refine ⟨?_, ?_, ?_⟩
  · intro g
    exact foldl_skuStep_nodup g [] List.nodup_nil
  · intro g
    simpa using foldl_skuStep_length_le g []
  · intro g hnd
    have := foldl_skuStep_length_eq g [] hnd (by
      intro r _ hmem
      simp [dictKeys] at hmem)
    simpa using this

/-- C3 witness: two rows with the distinct SKUs "S1" and "S2" keep both line
items. -/
theorem C3_sku_mapping_last_seen_wins_witness :
    (([c3row1, c3row3].map (fun r => r.seller_sku)).Nodup) ∧
    (build_sku_dict [c3row1, c3row3]).length =
      ([c3row1, c3row3] : List OrderRow).length :=
  ⟨by decide, C3_sku_mapping_last_seen_wins.2.2 [c3row1, c3row3] (by decide)⟩

theorem optionalField_mem {k k' : String} {v : JVal} {x : Option String} :
    (k', v) ∈ optionalField k x ↔
      (k' = k ∧ ∃ s, x = some s ∧ pyStrip s ≠ "" ∧ v = JVal.str (pyStrip s)) := by
  unfold optionalField
  cases x with
  | none => simp
  | some s =>
    by_cases h : pyStrip s = ""
    · simp [h]
    · simp [h]

/-- C4 counterexample: for an order row whose shipping promise date is
unparseable, `_build_webhook_payload` still emits a payload, and that payload
carries the optional field `shipping_promise_date` with a null value. -/
theorem C4_counterexample :
    build_webhook_payload "A1" c4orderRow [] = Except.ok c4payload ∧
    ("shipping_promise_date", JVal.null) ∈ c4payload := by
  refine ⟨rfl, ?_⟩
  simp [c4payload]

/-- C4 (amended): in the shipment flow the four optional fields (location,
courier, tracking number, notes) appear only when present and non-blank in
the row, copied trimmed, and are otherwise omitted — never null or empty.
In the order flow, however, the optional `shipping_promise_date` key is
always emitted, with a null value when the source date is missing or
unparseable. -/
theorem C4_optional_fields_and_promise_date :
    (∀ (row : TrackingRow) (ev : List (String × JVal)),
      build_tracking_event row = .ok ev →
      optOk ev "event_location" row.event_location ∧
      optOk ev "courier_name" row.courier_name ∧
      optOk ev "tracking_number" row.tracking_number ∧
      optOk ev "notes" row.notes) ∧
    (∀ (oid : String) (frow : OrderRow) (sku : List (String × SkuEntry))
        (p : List (String × JVal)),
      build_webhook_payload oid frow sku = .ok p →
      ("shipping_promise_date",
        match to_iso8601_clt frow.shipping_promise_date with
        | some s => JVal.str s
        | none => JVal.null) ∈ p) := by
  constructor
  · intro row ev hok
    unfold build_tracking_event at hok
    split at hok
    · exact Except.noConfusion hok
    · split at hok
      · exact Except.noConfusion hok
      · rw [Except.ok.injEq] at hok
        subst hok
        refine ⟨⟨?_, ?_⟩, ⟨?_, ?_⟩, ⟨?_, ?_⟩, ⟨?_, ?_⟩⟩
        · intro v hv
          simp only [List.mem_append, List.mem_cons, List.not_mem_nil,
            Prod.mk.injEq, optionalField_mem, or_false] at hv
          simp at hv
          exact hv
        · intro s hx hs
          simp [List.mem_append, optionalField_mem, hx, hs]
        · intro v hv
          simp only [List.mem_append, List.mem_cons, List.not_mem_nil,
            Prod.mk.injEq, optionalField_mem, or_false] at hv
          simp at hv
          exact hv
        · intro s hx hs
          simp [List.mem_append, optionalField_mem, hx, hs]
        · intro v hv
          simp only [List.mem_append, List.mem_cons, List.not_mem_nil,
            Prod.mk.injEq, optionalField_mem, or_false] at hv
          simp at hv
          exact hv
        · intro s hx hs
          simp [List.mem_append, optionalField_mem, hx, hs]
        · intro v hv
          simp only [List.mem_append, List.mem_cons, List.not_mem_nil,
            Prod.mk.injEq, optionalField_mem, or_false] at hv
          simp at hv
          exact hv
        · intro s hx hs
          simp [List.mem_append, optionalField_mem, hx, hs]
  · intro oid frow sku p hok
    unfold build_webhook_payload at hok
    cases hco : to_iso8601_clt frow.order_created_at with
    | none =>
      simp only [hco] at hok
      exact Except.noConfusion hok
    | some created =>
      simp only [hco] at hok
      rw [Except.ok.injEq] at hok
      subst hok
      simp

/-- C4 witness: on `c4row` the non-blank location is kept trimmed, the blank
courier and the missing tracking number are omitted, and the note is kept. -/
theorem C4_optional_fields_and_promise_date_witness :
    build_tracking_event c4row = .ok c4event ∧
    optOk c4event "event_location" c4row.event_location ∧
    optOk c4event "courier_name" c4row.courier_name ∧
    optOk c4event "tracking_number" c4row.tracking_number ∧
    optOk c4event "notes" c4row.notes :=
  ⟨rfl, (C4_optional_fields_and_promise_date.1 c4row c4event rfl).1,
    (C4_optional_fields_and_promise_date.1 c4row c4event rfl).2.1,
    (C4_optional_fields_and_promise_date.1 c4row c4event rfl).2.2.1,
    (C4_optional_fields_and_promise_date.1 c4row c4event rfl).2.2.2⟩

/-- C5 counterexample: the shipment flow's serializer keeps sub-second
precision — a naive timestamp with 500000 microseconds is emitted with its
fractional part, not at second-level precision — and in the order flow an
unparseable shipping promise timestamp yields a payload carrying null rather
than a validation failure. -/
theorem C5_counterexample :
    format_timestamp (TsInput.parsed ⟨0, 0, 500000, none⟩) =
      some "1970-01-01T00:00:00.500000+00:00" ∧
    isoformatSeconds ⟨0, 0, 500000, none⟩ 0 = "1970-01-01T00:00:00+00:00" ∧
    format_timestamp (TsInput.parsed ⟨0, 0, 500000, none⟩) ≠
      some (isoformatSeconds ⟨0, 0, 500000, none⟩ 0) ∧
    build_webhook_payload "A2" c5orderRow [] = Except.ok c5payload ∧
    ("shipping_promise_date", JVal.null) ∈ c5payload := by
  refine ⟨rfl, rfl, by decide, rfl, ?_⟩
  simp [c5payload]

/-- C5 (amended): timestamps are serialized in ISO-8601 form with an explicit
offset; a timezone-naive value is assumed UTC in the shipment flow (offset
"+00:00", wall clock unchanged) and localized to the fixed named timezone in
the second flow, at second-level precision there — while the shipment flow
preserves sub-second precision whenever the value has it. Unparseable
timestamps yield no string, and the required ones (event timestamp, order
creation date) then yield a validation failure instead of a payload; only
the order flow's optional shipping promise date still yields a payload,
carrying null. -/
theorem C5_timestamp_serialization (t : PTimestamp) (ht : t.tz = none)
    (raw : String) :
    offsetStr 0 = "+00:00" ∧
    (t.micros = 0 →
      format_timestamp (.parsed t) = some (isoformatSeconds t 0)) ∧
    (t.micros ≠ 0 →
      format_timestamp (.parsed t) =
        some (isoBase t ++ "." ++ pad6 t.micros ++ offsetStr 0)) ∧
    to_iso8601_clt (.parsed t) =
      some (isoformatSeconds t (cltOffsetMinutes t)) ∧
    format_timestamp (.unparseable raw) = none ∧
    to_iso8601_clt (.unparseable raw) = none ∧
    (∀ row : TrackingRow, row.event_timestamp = .unparseable raw →
      build_tracking_event row =
        .error ("Invalid event_timestamp for order " ++
          row.marketplace_order_id)) ∧
    (∀ (oid : String) (frow : OrderRow) (sku : List (String × SkuEntry)),
      frow.order_created_at = .unparseable raw →
      build_webhook_payload oid frow sku =
        .error ("Missing required date field: order_created_at for order " ++
          oid)) := by
  refine ⟨rfl, ?_, ?_, ?_, rfl, rfl, ?_, ?_⟩
  · intro h0
    simp [format_timestamp, isoformatAuto, ht, h0]
  · intro hne
    simp [format_timestamp, isoformatAuto, ht, hne]
  · simp [to_iso8601_clt, ht]
  · intro row hrow
    unfold build_tracking_event
    rw [hrow]
    rfl
  · intro oid frow sku h
    unfold build_webhook_payload
    rw [h]
    rfl

/-- C5 witness: the epoch instant, naive, serializes with the explicit
"+00:00" offset in the shipment flow and with the named zone's offset at
second-level precision in the second flow. -/
theorem C5_timestamp_serialization_witness :
    (⟨0, 0, 0, none⟩ : PTimestamp).tz = none ∧
    (⟨0, 0, 0, none⟩ : PTimestamp).micros = 0 ∧
    format_timestamp (.parsed ⟨0, 0, 0, none⟩) =
      some (isoformatSeconds ⟨0, 0, 0, none⟩ 0) ∧
    to_iso8601_clt (.parsed ⟨0, 0, 0, none⟩) =
      some (isoformatSeconds ⟨0, 0, 0, none⟩
        (cltOffsetMinutes ⟨0, 0, 0, none⟩)) :=
  ⟨rfl, rfl,
    (C5_timestamp_serialization ⟨0, 0, 0, none⟩ rfl "garbage").2.1 rfl,
    (C5_timestamp_serialization ⟨0, 0, 0, none⟩ rfl "garbage").2.2.2.1⟩

end PlugUp
